import Mathlib

/-!
Verification of the PINoF i10 target queue engine (src/PINoF/target/PINoF.c).

The development shallowly embeds the per-queue send/receive state machines,
the caravan aggregation buffers, and the scheduler work loop as executable
Lean functions.  Socket primitives (`kernel_sendpage`, `kernel_sendmsg`,
`sock_recvmsg`) are injected services: each embedded step takes the byte
count the socket reports as an explicit argument, and a caravan flush on the
reliable stream is modeled as transferring the requested length.  Machine
integers stay in `Nat`/`Int`; the wire values of interest (`ttag`,
`data_length`, lengths) are small enough that no wraparound is reachable in
the modeled regime.
-/

namespace PINoF

/-! ## Constants (from PINoF.c and nvme-tcp framing) -/

def I10_CARAVAN_CAPACITY : Nat := 65536
def I10_CARAVAN2_CAPACITY : Nat := 256
def I10_TARGET_RECV_BUDGET : Nat := 16
def I10_TARGET_SEND_BUDGET : Nat := 16
def I10_TARGET_IO_WORK_BUDGET : Nat := 64
def NVME_TCP_DIGEST_LENGTH : Nat := 4
def NVME_TCP_F_HDGST : Nat := 1
def NVME_TCP_F_DDGST : Nat := 2

/-- Size of `struct nvme_tcp_hdr`: type, flags, hlen, pdo (1 byte each) + plen (4). -/
def sizeof_nvme_tcp_hdr : Nat := 8

/-- Size of `struct nvme_tcp_data_pdu`: hdr + command_id + ttag + data_offset + data_length + rsvd. -/
def sizeof_nvme_tcp_data_pdu : Nat := 24

/-- Size of `struct nvme_tcp_rsp_pdu`: hdr + 16-byte completion queue entry. -/
def sizeof_nvme_tcp_rsp_pdu : Nat := 24

/-- Size of `struct nvme_tcp_r2t_pdu`. -/
def sizeof_nvme_tcp_r2t_pdu : Nat := 24

/-- Size of `struct nvme_tcp_icreq_pdu`. -/
def sizeof_nvme_tcp_icreq_pdu : Nat := 128

def EAGAIN : Int := -11
def EIO : Int := -5
def ENOMEM : Int := -12
def EPROTO : Int := -71

/-! ## Data model -/

inductive SendState where
  | SEND_DATA_PDU
  | SEND_DATA
  | SEND_R2T
  | SEND_DDGST
  | SEND_RESPONSE
deriving DecidableEq

inductive RState where
  | RECV_PDU
  | RECV_DATA
  | RECV_DDGST
  | RECV_ERR
deriving DecidableEq

inductive QState where
  | CONNECTING
  | LIVE
  | DISCONNECTING
deriving DecidableEq

/-- Command control block (`struct i10_target_cmd`).  `tag` is the slot index
(`cmd - queue->cmds`); `isConnect` marks the reserved `queue->connect` slot;
`isWrite` is `nvme_is_write(cmd->req.cmd)`; `statusOk` is
`cmd->req.rsp->status == 0`; `cur_sg` lists the lengths of the remaining
scatter-gather elements. -/
structure Cmd where
  tag : Nat
  isConnect : Bool
  isWrite : Bool
  statusOk : Bool
  command_id : Nat
  transfer_len : Nat
  rbytes_done : Nat
  wbytes_done : Nat
  pdu_len : Nat
  pdu_recv : Nat
  offset : Nat
  cur_sg : List Nat
  state : SendState
deriving DecidableEq

/-- One caravan gather buffer: `iovs` records the `iov_len` of every appended
segment in order (`nr_iovs = iovs.length`), `len` is `caravan_len`, `cmds`
the owning commands appended for release-on-flush, `mapped` the count of
kmapped pages. -/
structure Caravan where
  iovs : List Nat
  len : Nat
  cmds : List Cmd
  mapped : Nat
  send_now : Bool
deriving DecidableEq

def Caravan.empty : Caravan :=
  { iovs := [], len := 0, cmds := [], mapped := 0, send_now := false }

/-- Queue state relevant to the send path (`struct i10_target_queue`).
`free_list` holds the tags of free slots; `snd_cmd_active` tracks whether
`queue->snd_cmd` is non-NULL. -/
structure Queue where
  qid : Nat
  hdr_digest : Bool
  data_digest : Bool
  free_list : List Nat
  caravan : Caravan
  caravan2 : Caravan
  snd_cmd_active : Bool
  send_list_len : Nat
deriving DecidableEq

def i10_target_is_admin_queue (q : Queue) : Bool := q.qid == 0

def i10_target_hdgst_len (q : Queue) : Nat :=
  if q.hdr_digest then NVME_TCP_DIGEST_LENGTH else 0

def i10_target_ddgst_len (q : Queue) : Nat :=
  if q.data_digest then NVME_TCP_DIGEST_LENGTH else 0

def i10_target_has_data_in (cmd : Cmd) : Bool :=
  cmd.isWrite && decide (cmd.rbytes_done < cmd.transfer_len)

def i10_target_need_data_in (cmd : Cmd) : Bool :=
  i10_target_has_data_in cmd && cmd.statusOk

def i10_target_need_data_out (cmd : Cmd) : Bool :=
  !cmd.isWrite && decide (0 < cmd.transfer_len) && cmd.statusOk

/-- `i10_target_put_cmd`: return a command to the free list unless it is the
reserved connect slot. -/
def i10_target_put_cmd (q : Queue) (cmd : Cmd) : Queue :=
  if cmd.isConnect then q else { q with free_list := q.free_list ++ [cmd.tag] }

def i10_target_is_caravan_full (q : Queue) : Bool :=
  decide (I10_CARAVAN_CAPACITY ≤ q.caravan.len) ||
  decide (I10_TARGET_SEND_BUDGET * 3 ≤ q.caravan.iovs.length) ||
  decide (I10_TARGET_SEND_BUDGET ≤ q.caravan.cmds.length) ||
  decide (I10_TARGET_SEND_BUDGET ≤ q.caravan.mapped)

def i10_target_is_caravan2_full (q : Queue) : Bool :=
  decide (I10_CARAVAN2_CAPACITY ≤ q.caravan2.len) ||
  decide (I10_TARGET_SEND_BUDGET * 3 ≤ q.caravan2.iovs.length) ||
  decide (I10_TARGET_SEND_BUDGET ≤ q.caravan2.cmds.length) ||
  decide (I10_TARGET_SEND_BUDGET ≤ q.caravan2.mapped)

/-- Append one iovec segment of length `l` to a caravan:
`caravan_iovs[nr_iovs++].iov_len = l; caravan_len += l`. -/
def caravan_append_iov (c : Caravan) (l : Nat) : Caravan :=
  { c with iovs := c.iovs ++ [l], len := c.len + l }

/-- Record an owning command: `caravan_cmds[nr_caravan_cmds++].cmd = cmd`. -/
def caravan_append_cmd (c : Caravan) (cmd : Cmd) : Caravan :=
  { c with cmds := c.cmds ++ [cmd] }

/-- Record a kmapped page: `caravan_mapped[nr_caravan_mapped++] = page`. -/
def caravan_append_mapped (c : Caravan) : Caravan :=
  { c with mapped := c.mapped + 1 }

/-- Result of one send-machine step.  `wire` lists byte counts this step wrote
directly to the socket (bypassing the caravans). -/
structure SendStep where
  ret : Int
  cmd : Cmd
  q : Queue
  wire : List Nat
deriving DecidableEq

/-! ## Send-side PDU setup (`i10_target_setup_*_pdu`) -/

structure R2tPdu where
  hlen : Nat
  plen : Nat
  command_id : Nat
  ttag : Nat
  r2t_length : Nat
  r2t_offset : Nat
deriving DecidableEq

/-- `i10_target_setup_r2t_pdu`: reset `offset`, enter `SEND_R2T`, and fill the
r2t PDU from the command (ttag is the slot index, `r2t_length`/`r2t_offset`
from `transfer_len`/`rbytes_done`). -/
def i10_target_setup_r2t_pdu (q : Queue) (cmd : Cmd) : Cmd × R2tPdu :=
  ({ cmd with offset := 0, state := SendState.SEND_R2T },
   { hlen := sizeof_nvme_tcp_r2t_pdu,
     plen := sizeof_nvme_tcp_r2t_pdu + i10_target_hdgst_len q,
     command_id := cmd.command_id,
     ttag := cmd.tag,
     r2t_length := cmd.transfer_len - cmd.rbytes_done,
     r2t_offset := cmd.rbytes_done })

/-- `i10_target_setup_response_pdu`: reset `offset` and enter `SEND_RESPONSE`. -/
def i10_target_setup_response_pdu (cmd : Cmd) : Cmd :=
  { cmd with offset := 0, state := SendState.SEND_RESPONSE }

/-! ## Send-machine steps -/

/-- `i10_target_try_send_response`.  On a non-admin queue the branch on
`!nvme_is_write(cmd->req.cmd)` selects the caravan: the first branch appends
to caravan C1, the second to caravan C2.  On the admin queue `written` is the
`kernel_sendpage` return value. -/
def i10_target_try_send_response (q : Queue) (cmd : Cmd) (written : Int) : SendStep :=
  let hdgst := i10_target_hdgst_len q
  let left : Int := ((sizeof_nvme_tcp_rsp_pdu + hdgst : Nat) : Int) - (cmd.offset : Int)
  if ¬ (i10_target_is_admin_queue q = true) then
    if ¬ cmd.isWrite then
      if i10_target_is_caravan_full q then
        { ret := 1, cmd := cmd,
          q := { q with caravan := { q.caravan with send_now := true } }, wire := [] }
      else
        { ret := 1,
          cmd := { cmd with offset := cmd.offset + left.toNat },
          q := { q with
                   caravan := caravan_append_cmd (caravan_append_iov q.caravan left.toNat) cmd,
                   snd_cmd_active := false },
          wire := [] }
    else
      if i10_target_is_caravan2_full q then
        { ret := 1, cmd := cmd,
          q := { q with caravan2 := { q.caravan2 with send_now := true } }, wire := [] }
      else
        { ret := 1,
          cmd := { cmd with offset := cmd.offset + left.toNat },
          q := { q with
                   caravan2 := caravan_append_cmd (caravan_append_iov q.caravan2 left.toNat) cmd,
                   snd_cmd_active := false },
          wire := [] }
  else
    if written ≤ 0 then { ret := written, cmd := cmd, q := q, wire := [] }
    else
      let cmd1 := { cmd with offset := cmd.offset + written.toNat }
      if left - written ≠ 0 then
        { ret := EAGAIN, cmd := cmd1, q := q, wire := [written.toNat] }
      else
        { ret := 1, cmd := cmd1,
          q := i10_target_put_cmd { q with snd_cmd_active := false } cmd1,
          wire := [written.toNat] }

/-- `i10_target_try_send_data_pdu`.  `left` is the unsent remainder of the
c2h_data header (plus optional header digest).  Non-admin queues append it to
caravan C1; the admin queue writes it with `kernel_sendpage`, whose return
value is `written`. -/
def i10_target_try_send_data_pdu (q : Queue) (cmd : Cmd) (written : Int) : SendStep :=
  let hdgst := i10_target_hdgst_len q
  let left : Int := ((sizeof_nvme_tcp_data_pdu + hdgst : Nat) : Int) - (cmd.offset : Int)
  if ¬ (i10_target_is_admin_queue q = true) then
    if i10_target_is_caravan_full q then
      { ret := 1, cmd := cmd,
        q := { q with caravan := { q.caravan with send_now := true } }, wire := [] }
    else
      let q1 := { q with caravan := caravan_append_iov q.caravan left.toNat }
      if left ≤ 0 then { ret := left, cmd := cmd, q := q1, wire := [] }
      else
        { ret := 1, cmd := { cmd with state := SendState.SEND_DATA, offset := 0 },
          q := q1, wire := [] }
  else
    if written ≤ 0 then { ret := written, cmd := cmd, q := q, wire := [] }
    else
      let cmd1 := { cmd with offset := cmd.offset + written.toNat }
      if left - written ≠ 0 then
        { ret := EAGAIN, cmd := cmd1, q := q, wire := [written.toNat] }
      else
        { ret := 1, cmd := { cmd1 with state := SendState.SEND_DATA, offset := 0 },
          q := q, wire := [written.toNat] }

/-- Outcome of the `while (cmd->cur_sg)` loop of `i10_target_try_send_data`:
`full` rolled back because caravan C1 was full (returns 1, state untouched),
`err` propagates a non-positive socket/append result, `done` exhausted the
scatter list, `starved` marks a modeled trace that ended before the loop did. -/
inductive DataLoopOut where
  | full (cmd : Cmd)
  | err (cmd : Cmd) (r : Int)
  | done (cmd : Cmd)
  | starved (cmd : Cmd)
deriving DecidableEq

/-- Caravan path of the `i10_target_try_send_data` loop, structurally
recursive on the scatter list (the first argument always equals
`cmd.cur_sg`): each iteration appends the remainder
(`left = cur_sg->length - offset`) of the current scatter element to caravan
C1 together with its kmapped page, so a positive append always completes the
element and the cursor advances. -/
def try_send_data_caravan_go : List Nat → Queue → Cmd → Queue × DataLoopOut
  | [], q, cmd => (q, DataLoopOut.done cmd)
  | l :: rest, q, cmd =>
    if i10_target_is_caravan_full q then
      ({ q with caravan := { q.caravan with send_now := true } }, DataLoopOut.full cmd)
    else
      let left : Int := (l : Int) - (cmd.offset : Int)
      let q1 := { q with caravan := caravan_append_mapped (caravan_append_iov q.caravan left.toNat) }
      if left ≤ 0 then (q1, DataLoopOut.err cmd left)
      else
        try_send_data_caravan_go rest q1
          { cmd with offset := 0,
                     wbytes_done := cmd.wbytes_done + left.toNat,
                     cur_sg := rest }

def try_send_data_caravan_loop (q : Queue) (cmd : Cmd) : Queue × DataLoopOut :=
  try_send_data_caravan_go cmd.cur_sg q cmd

/-- Admin (direct `kernel_sendpage`) path of the `i10_target_try_send_data`
loop.  `ws` is the stream of socket return values, one per `kernel_sendpage`
call. -/
def try_send_data_direct_loop : List Int → Cmd → DataLoopOut
  | [], cmd =>
    (match cmd.cur_sg with
     | [] => DataLoopOut.done cmd
     | _ :: _ => DataLoopOut.starved cmd)
  | w :: ws1, cmd =>
    match cmd.cur_sg with
    | [] => DataLoopOut.done cmd
    | l :: rest =>
      if w ≤ 0 then DataLoopOut.err cmd w
      else
        let cmd1 := { cmd with offset := cmd.offset + w.toNat,
                               wbytes_done := cmd.wbytes_done + w.toNat }
        if cmd1.offset = l then
          try_send_data_direct_loop ws1 { cmd1 with cur_sg := rest, offset := 0 }
        else
          try_send_data_direct_loop ws1 cmd1

/-- Epilogue of `i10_target_try_send_data` once the scatter list is
exhausted: enter `SEND_DDGST` when data digest is on, otherwise go straight
to `SEND_RESPONSE`. -/
def try_send_data_finish (q : Queue) (cmd : Cmd) : Cmd :=
  if q.data_digest then { cmd with state := SendState.SEND_DDGST, offset := 0 }
  else i10_target_setup_response_pdu cmd

/-- `i10_target_try_send_data`.  `ws` feeds the admin-path `kernel_sendpage`
results; the caravan path computes its own per-element append lengths.
`none` marks a starved direct trace. -/
def i10_target_try_send_data (q : Queue) (cmd : Cmd) (ws : List Int) : Option SendStep :=
  if ¬ (i10_target_is_admin_queue q = true) then
    match try_send_data_caravan_loop q cmd with
    | (q1, DataLoopOut.full cmd1) => some { ret := 1, cmd := cmd1, q := q1, wire := [] }
    | (q1, DataLoopOut.err cmd1 r) => some { ret := r, cmd := cmd1, q := q1, wire := [] }
    | (q1, DataLoopOut.done cmd1) =>
        some { ret := 1, cmd := try_send_data_finish q1 cmd1, q := q1, wire := [] }
    | (_, DataLoopOut.starved _) => none
  else
    match try_send_data_direct_loop ws cmd with
    | DataLoopOut.err cmd1 r => some { ret := r, cmd := cmd1, q := q, wire := [] }
    | DataLoopOut.done cmd1 =>
        some { ret := 1, cmd := try_send_data_finish q cmd1, q := q, wire := [] }
    | DataLoopOut.full cmd1 => some { ret := 1, cmd := cmd1, q := q, wire := [] }
    | DataLoopOut.starved _ => none

/-- `i10_target_try_send_ddgst`: always a direct `kernel_sendmsg` of the
`NVME_TCP_DIGEST_LENGTH - offset` trailing digest bytes — there is no caravan
branch in this function.  On any positive result it accumulates `offset` and
immediately sets up the response PDU. -/
def i10_target_try_send_ddgst (q : Queue) (cmd : Cmd) (written : Int) : SendStep :=
  if written ≤ 0 then { ret := written, cmd := cmd, q := q, wire := [] }
  else
    { ret := 1,
      cmd := i10_target_setup_response_pdu { cmd with offset := cmd.offset + written.toNat },
      q := q, wire := [written.toNat] }

/-- `i10_target_try_send_r2t`.  Non-admin queues append the r2t PDU to
caravan C2 (without recording the command for release); the admin queue uses
`kernel_sendpage` with result `written`.  Completion clears `snd_cmd` but
never calls `i10_target_put_cmd`. -/
def i10_target_try_send_r2t (q : Queue) (cmd : Cmd) (written : Int) : SendStep :=
  let hdgst := i10_target_hdgst_len q
  let left : Int := ((sizeof_nvme_tcp_r2t_pdu + hdgst : Nat) : Int) - (cmd.offset : Int)
  if ¬ (i10_target_is_admin_queue q = true) then
    if i10_target_is_caravan2_full q then
      { ret := 1, cmd := cmd,
        q := { q with caravan2 := { q.caravan2 with send_now := true } }, wire := [] }
    else
      let q1 := { q with caravan2 := caravan_append_iov q.caravan2 left.toNat }
      if left ≤ 0 then { ret := left, cmd := cmd, q := q1, wire := [] }
      else
        { ret := 1, cmd := { cmd with offset := cmd.offset + left.toNat },
          q := { q1 with snd_cmd_active := false }, wire := [] }
  else
    if written ≤ 0 then { ret := written, cmd := cmd, q := q, wire := [] }
    else
      let cmd1 := { cmd with offset := cmd.offset + written.toNat }
      if left - written ≠ 0 then
        { ret := EAGAIN, cmd := cmd1, q := q, wire := [written.toNat] }
      else
        { ret := 1, cmd := cmd1, q := { q with snd_cmd_active := false },
          wire := [written.toNat] }

/-! ## Caravan flush (the two flush blocks of `i10_target_try_send`) -/

/-- Result of one caravan flush: `sentBytes` is the length handed to the
single `kernel_sendmsg` over all segments (the reliable stream transfers it
in full in the modeled regime), `released` the owning commands whose iovec
and scatter-gather resources are freed. -/
structure FlushResult where
  sentBytes : Nat
  released : List Cmd
  q : Queue
deriving DecidableEq

/-- Flush caravan C1: one `kernel_sendmsg` of `caravan_len` bytes over
`nr_iovs` segments, then release every owning command via
`i10_target_put_cmd`, unmap the pages, and reset the counters. -/
def i10_target_flush_caravan (q : Queue) : FlushResult :=
  { sentBytes := q.caravan.len,
    released := q.caravan.cmds,
    q := { (q.caravan.cmds.foldl i10_target_put_cmd q) with caravan := Caravan.empty } }

/-- Flush caravan C2 (identical shape to the C1 flush block). -/
def i10_target_flush_caravan2 (q : Queue) : FlushResult :=
  { sentBytes := q.caravan2.len,
    released := q.caravan2.cmds,
    q := { (q.caravan2.cmds.foldl i10_target_put_cmd q) with caravan2 := Caravan.empty } }

/-- The append operations that the send machine performs on a caravan:
`iov` from `try_send_data_pdu`/`try_send_r2t`, `iovCmd` from
`try_send_response`, `iovMapped` from `try_send_data`. -/
inductive CarAppend where
  | iov (l : Nat)
  | iovCmd (l : Nat) (cmd : Cmd)
  | iovMapped (l : Nat)
deriving DecidableEq

def CarAppend.apply (c : Caravan) : CarAppend → Caravan
  | CarAppend.iov l => caravan_append_iov c l
  | CarAppend.iovCmd l cmd => caravan_append_cmd (caravan_append_iov c l) cmd
  | CarAppend.iovMapped l => caravan_append_mapped (caravan_append_iov c l)

def CarAppend.segLen : CarAppend → Nat
  | CarAppend.iov l => l
  | CarAppend.iovCmd l _ => l
  | CarAppend.iovMapped l => l

def CarAppend.owner : CarAppend → List Cmd
  | CarAppend.iov _ => []
  | CarAppend.iovCmd _ cmd => [cmd]
  | CarAppend.iovMapped _ => []

def caravanOfAppends (ops : List CarAppend) : Caravan :=
  ops.foldl CarAppend.apply Caravan.empty

/-! ## Header digest verification (`i10_target_verify_hdgst`)

The receive scratch PDU is a byte buffer.  Byte 1 of the buffer is
`hdr->flags`, byte 2 is `hdr->hlen`.  `crc` is the injected CRC32C
primitive: it maps the digested bytes to the 4 digest bytes. -/

def read32 (buf : List Nat) (off : Nat) : List Nat :=
  (buf.drop off).take 4

def write32 (buf : List Nat) (off : Nat) (v : List Nat) : List Nat :=
  buf.take off ++ v ++ buf.drop (off + 4)

/-- `i10_target_hdgst(hash, pdu, len)`: digest `len` bytes starting at `pdu`
and store the 4 result bytes at `pdu + len`. -/
def i10_target_hdgst (crc : List Nat → List Nat) (buf : List Nat) (len : Nat) : List Nat :=
  write32 buf len (crc (buf.take len))

/-- `i10_target_verify_hdgst(queue, pdu, len)`: reject a missing HDGST flag,
read the received digest at `pdu + hdr->hlen`, recompute the digest in place
(written at `pdu + len`), and compare the 4 bytes at `pdu + hdr->hlen`
again.  Returns the `int` result together with the buffer after the in-place
digest store. -/
def i10_target_verify_hdgst (crc : List Nat → List Nat) (buf : List Nat) (len : Nat) :
    Int × List Nat :=
  let flags := buf.getD 1 0
  let hlen := buf.getD 2 0
  if flags &&& NVME_TCP_F_HDGST = 0 then (EPROTO, buf)
  else
    let recv_digest := read32 buf hlen
    let buf2 := i10_target_hdgst crc buf len
    let exp_digest := read32 buf2 hlen
    if recv_digest = exp_digest then (0, buf2) else (EPROTO, buf2)

/-- Tail of `i10_target_try_recv_pdu` once the full header (plus optional
header digest) is in the scratch buffer: with header digest negotiated,
`queue->offset` equals `hdr->hlen + NVME_TCP_DIGEST_LENGTH`, and that offset
is the `len` passed to `i10_target_verify_hdgst`.  Returns `true` when the
check fails, i.e. when `i10_target_fatal_error` runs and `-EPROTO` is
returned instead of dispatching the PDU. -/
def i10_target_recv_pdu_hdgst_fatal (crc : List Nat → List Nat) (hdr_digest : Bool)
    (buf : List Nat) : Bool :=
  hdr_digest &&
    decide ((i10_target_verify_hdgst crc buf (buf.getD 2 0 + NVME_TCP_DIGEST_LENGTH)).1 ≠ 0)

/-! ## Inbound h2c_data handling -/

/-- Wire fields of an inbound `nvme_tcp_data_pdu`. -/
structure H2cPdu where
  ttag : Nat
  data_offset : Nat
  data_length : Nat
deriving DecidableEq

/-- The raw slot index `i10_target_handle_h2c_data_pdu` dereferences:
`cmd = &queue->cmds[data->ttag]`, with no comparison of `ttag` against
`nr_cmds`. -/
def h2c_lookup_index (pdu : H2cPdu) : Nat := pdu.ttag

/-- `i10_target_handle_h2c_data_pdu` over the per-queue slot array `cmds`
(of length `nr_cmds`).  `none` models the out-of-bounds dereference when the
wire-supplied `ttag` reaches past the array.  In bounds, a `data_offset`
that differs from `rbytes_done` completes the request with
`INVALID_FIELD | DNR` and returns `-EPROTO`; otherwise `pdu_len` is taken
from the data_length of the peer unchecked, the iovec is mapped, and the queue
enters `RECV_DATA` on that slot. -/
def i10_target_handle_h2c_data_pdu (cmds : List Cmd) (pdu : H2cPdu) :
    Option (Int × List Cmd × RState) :=
  match cmds.get? (h2c_lookup_index pdu) with
  | none => none
  | some cmd =>
    if pdu.data_offset ≠ cmd.rbytes_done then
      some (EPROTO, cmds, RState.RECV_PDU)
    else
      some (0,
            cmds.set pdu.ttag { cmd with pdu_len := pdu.data_length, pdu_recv := 0 },
            RState.RECV_DATA)

/-- Number of command slots provisioned by `i10_target_install_queue`:
`queue->nr_cmds = sq->size * 2`. -/
def i10_target_install_queue_nr_cmds (sq_size : Nat) : Nat := sq_size * 2

/-- Outcome of the `while (msg_data_left(...))` loop of
`i10_target_try_recv_data`. -/
inductive RecvDataOut where
  | again (cmd : Cmd) (r : Int)
  | complete (cmd : Cmd)
  | starved (cmd : Cmd)
deriving DecidableEq

/-- The `i10_target_try_recv_data` receive loop: `msg_data_left` is
`pdu_len - pdu_recv`; each `sock_recvmsg` result `r` adds to both `pdu_recv`
and `rbytes_done`; a non-positive result returns immediately (state stays
`RECV_DATA`).  `rs` is the stream of `sock_recvmsg` results. -/
def try_recv_data_loop : List Int → Cmd → RecvDataOut
  | [], cmd =>
    if cmd.pdu_len - cmd.pdu_recv = 0 then RecvDataOut.complete cmd
    else RecvDataOut.starved cmd
  | r :: rs1, cmd =>
    if cmd.pdu_len - cmd.pdu_recv = 0 then RecvDataOut.complete cmd
    else if r ≤ 0 then RecvDataOut.again cmd r
    else
      try_recv_data_loop rs1
        { cmd with pdu_recv := cmd.pdu_recv + r.toNat,
                   rbytes_done := cmd.rbytes_done + r.toNat }

/-- `sock_recvmsg` never delivers more than `msg_data_left` bytes: the
validity condition on a modeled receive trace. -/
def recvTraceValid : List Int → Nat → Bool
  | [], _ => true
  | r :: rs, remaining =>
    if r ≤ 0 then true
    else decide (r.toNat ≤ remaining) && recvTraceValid rs (remaining - r.toNat)

/-! ## Initial connection request (`i10_target_handle_icreq`) -/

/-- Fields of the inbound `nvme_tcp_icreq_pdu` that the handler inspects. -/
structure IcreqPdu where
  plen : Nat
  pfv : Nat
  hpda : Nat
  maxr2t : Nat
  digest : Nat
deriving DecidableEq

/-- Observable outcome of `i10_target_handle_icreq`.  `fatal_invoked` records
that `i10_target_fatal_error` ran (receive state set to `RECV_ERR`, then
`ctrl_fatal_error` or a socket shutdown); `rcv_state` is the receive state
when the handler returns. -/
structure IcreqEffects where
  ret : Int
  fatal_invoked : Bool
  icresp_sent : Bool
  qstate : QState
  rcv_state : RState
  hdr_digest : Bool
  data_digest : Bool
deriving DecidableEq

def NVME_TCP_HDR_DIGEST_ENABLE : Nat := 1
def NVME_TCP_DATA_DIGEST_ENABLE : Nat := 2

/-- `i10_target_handle_icreq`, modeled on a fresh `CONNECTING` queue (both
digest flags still clear, receive state `rcv0`).  The CRC allocation and the
synchronous `kernel_sendmsg` of the icresp are injected services modeled as
succeeding.  A `plen` different from the icreq PDU size invokes
`i10_target_fatal_error` but does not return: the validations, the icresp
send, and the transition to `LIVE` (followed by `prepare_receive_pdu`,
which rearms `RECV_PDU`) all still run. -/
def i10_target_handle_icreq (rcv0 : RState) (p : IcreqPdu) : IcreqEffects :=
  let bad_plen : Bool := p.plen != sizeof_nvme_tcp_icreq_pdu
  let rcv1 := if bad_plen then RState.RECV_ERR else rcv0
  if p.pfv != 1 then
    { ret := EPROTO, fatal_invoked := bad_plen, icresp_sent := false,
      qstate := QState.CONNECTING, rcv_state := rcv1,
      hdr_digest := false, data_digest := false }
  else if p.hpda != 0 then
    { ret := EPROTO, fatal_invoked := bad_plen, icresp_sent := false,
      qstate := QState.CONNECTING, rcv_state := rcv1,
      hdr_digest := false, data_digest := false }
  else if p.maxr2t != 0 then
    { ret := EPROTO, fatal_invoked := bad_plen, icresp_sent := false,
      qstate := QState.CONNECTING, rcv_state := rcv1,
      hdr_digest := false, data_digest := false }
  else
    { ret := 0, fatal_invoked := bad_plen, icresp_sent := true,
      qstate := QState.LIVE, rcv_state := RState.RECV_PDU,
      hdr_digest := p.digest &&& NVME_TCP_HDR_DIGEST_ENABLE != 0,
      data_digest := p.digest &&& NVME_TCP_DATA_DIGEST_ENABLE != 0 }

/-! ## Queue scheduler (`i10_target_io_work`)

`f` and `g` are the per-call result streams of `i10_target_try_recv_one`
and of one `i10_target_try_send` iteration (a `try_send_one` result, or the
early `return 0` taken when the send buffer has no space for a pending
caravan). -/

/-- One iteration result inside the budget loop of `i10_target_try_send`. -/
inductive SendOut where
  | res (r : Int)
  | nospace
deriving DecidableEq

/-- The `i10_target_try_recv` budget loop: run `try_recv_one` up to `budget`
times, breaking on the first non-positive result before incrementing
`*recvs`.  Returns (final result, final ops counter, stream cursor). -/
def tryRecvGo (f : Nat → Int) : Nat → Nat → Nat → Int → Int × Nat × Nat
  | cur, 0, ops, last => (last, ops, cur)
  | cur, b + 1, ops, _ =>
    let r := f cur
    if r ≤ 0 then (r, ops, cur + 1)
    else tryRecvGo f (cur + 1) b (ops + 1) r

def i10_target_try_recv (f : Nat → Int) (cur ops : Nat) : Int × Nat × Nat :=
  tryRecvGo f cur I10_TARGET_RECV_BUDGET ops 0

/-- The `i10_target_try_send` budget loop: as `tryRecvGo`, except that a
flush block finding no socket send-buffer space returns 0 from the whole
function before `(*sends)++` runs. -/
def trySendGo (g : Nat → SendOut) : Nat → Nat → Nat → Int → Int × Nat × Nat
  | cur, 0, ops, last => (last, ops, cur)
  | cur, b + 1, ops, _ =>
    match g cur with
    | SendOut.nospace => (0, ops, cur + 1)
    | SendOut.res r =>
      if r ≤ 0 then (r, ops, cur + 1)
      else trySendGo g (cur + 1) b (ops + 1) r

def i10_target_try_send (g : Nat → SendOut) (cur ops : Nat) : Int × Nat × Nat :=
  trySendGo g cur I10_TARGET_SEND_BUDGET ops 0

/-- Exit of the `i10_target_io_work` body: `torn` is the early return on a
negative result (socket shutdown or fatal error, never requeued), `finished`
carries the final `pending` flag, whether the work item was requeued on the
CPU of the queue, and the final `ops` counter.  `fuelOut` is the modeling
sentinel for an exhausted recursion bound; the work body never reaches it. -/
inductive IoExit where
  | torn
  | finished (pending : Bool) (requeued : Bool) (ops : Nat)
  | fuelOut
deriving DecidableEq

/-- The `do { ... } while (pending && ops < I10_TARGET_IO_WORK_BUDGET)` body
of `i10_target_io_work`, with `if (pending) queue_work_on(...)` after the
loop. -/
def ioWorkGo (f : Nat → Int) (g : Nat → SendOut) :
    Nat → Nat → Nat → Nat → IoExit
  | _, _, _, 0 => IoExit.fuelOut
  | rc, sc, ops, fuel + 1 =>
    let rr := i10_target_try_recv f rc ops
    if rr.1 < 0 then IoExit.torn
    else
      let pending1 := 0 < rr.1
      let sr := i10_target_try_send g sc rr.2.1
      if sr.1 < 0 then IoExit.torn
      else
        let pending := pending1 ∨ 0 < sr.1
        if pending ∧ sr.2.1 < I10_TARGET_IO_WORK_BUDGET then
          ioWorkGo f g rr.2.2 sr.2.2 sr.2.1 fuel
        else
          IoExit.finished (decide pending) (decide pending) sr.2.1

/-- `i10_target_io_work`: the work body entered with `ops = 0`. -/
def i10_target_io_work (f : Nat → Int) (g : Nat → SendOut) : IoExit :=
  ioWorkGo f g 0 0 0 I10_TARGET_IO_WORK_BUDGET

/-! ## Outcome accessors -/

def DataLoopOut.cmd : DataLoopOut → Cmd
  | DataLoopOut.full c => c
  | DataLoopOut.err c _ => c
  | DataLoopOut.done c => c
  | DataLoopOut.starved c => c

def RecvDataOut.cmd : RecvDataOut → Cmd
  | RecvDataOut.again c _ => c
  | RecvDataOut.complete c => c
  | RecvDataOut.starved c => c

/-- Validity of a modeled direct-send trace: `kernel_sendpage` never reports
more than the `left = cur_sg->length - offset` bytes it was asked to send. -/
def sendTraceValid : List Int → Nat → List Nat → Bool
  | [], _, _ => true
  | _ :: _, _, [] => true
  | w :: ws, offset, l :: rest =>
    if w ≤ 0 then true
    else
      decide (offset + w.toNat ≤ l) &&
        (if offset + w.toNat = l then sendTraceValid ws 0 rest
         else sendTraceValid ws (offset + w.toNat) (l :: rest))

/-! ## Concrete sample states used by the witnesses and counterexamples -/

/-- A non-admin (I/O) queue with empty caravans, no digests, empty free list. -/
def sampleIoQueue : Queue :=
  { qid := 1, hdr_digest := false, data_digest := false, free_list := [],
    caravan := Caravan.empty, caravan2 := Caravan.empty,
    snd_cmd_active := true, send_list_len := 0 }

/-- The same queue with data digest negotiated. -/
def sampleIoQueueDdgst : Queue := { sampleIoQueue with data_digest := true }

/-- An admin queue (qid 0). -/
def sampleAdminQueue : Queue := { sampleIoQueue with qid := 0 }

/-- A completed 512-byte write command about to send its response. -/
def sampleWriteCmd : Cmd :=
  { tag := 3, isConnect := false, isWrite := true, statusOk := true, command_id := 7,
    transfer_len := 512, rbytes_done := 512, wbytes_done := 0, pdu_len := 0, pdu_recv := 0,
    offset := 0, cur_sg := [], state := SendState.SEND_RESPONSE }

/-- A completed 512-byte read command about to send its response. -/
def sampleReadCmd : Cmd := { sampleWriteCmd with isWrite := false, tag := 4 }

/-- The reserved connect slot (a fabrics command, odd opcode, hence
`nvme_is_write` true) about to send its response. -/
def sampleConnectCmd : Cmd := { sampleWriteCmd with isConnect := true, tag := 0 }

/-- A read command in `SEND_DDGST` with the 4 digest bytes still unsent. -/
def sampleDdgstCmd : Cmd := { sampleReadCmd with state := SendState.SEND_DDGST }

/-- A 512-byte write slot awaiting its solicited h2c data. -/
def sampleR2tSlot : Cmd :=
  { sampleWriteCmd with rbytes_done := 0, state := SendState.SEND_R2T }

/-- The queue state after the response append of the source itself routed the
connect slot response into caravan C2. -/
def sampleConnectHeld : Queue :=
  (i10_target_try_send_response sampleIoQueue sampleConnectCmd 0).q

/-- A 128-byte read command mid-`SEND_DATA`, scatter list of two elements. -/
def sampleDataCmd : Cmd :=
  { sampleReadCmd with state := SendState.SEND_DATA, transfer_len := 128,
                       cur_sg := [100, 28] }

/-- A command on the admin queue about to send its response directly. -/
def sampleAdminRspCmd : Cmd := { sampleReadCmd with tag := 5 }

/-- A header buffer: 8 header bytes (type 4, HDGST flag set, hlen 8) followed
by the 4 received digest bytes 9,9,9,9. -/
def sampleHdrBuf : List Nat := [4, 1, 8, 0, 0, 0, 0, 0, 9, 9, 9, 9]

/-- A concrete injected CRC32C: constant digest 1,2,3,4 — which differs from
the trailing bytes of `sampleHdrBuf`, a genuine header-digest mismatch. -/
def sampleCrc : List Nat → List Nat := fun _ => [1, 2, 3, 4]

/-! ## Helper lemmas -/

theorem read32_write32_of_le (buf v : List Nat) (off h : Nat)
    (h1 : h + 4 ≤ off) (h2 : off ≤ buf.length) :
    read32 (write32 buf off v) h = read32 buf h := by
  have key : (write32 buf off v).take (h + 4) = buf.take (h + 4) := by
    unfold write32
    rw [List.take_append_of_le_length (by simp [List.length_take]; omega)]
    rw [List.take_append_of_le_length (by simp [List.length_take]; omega)]
    rw [List.take_take]
    congr 1
    omega
  have e : ∀ x : List Nat, List.take 4 (List.drop h x) = List.drop h (List.take (h + 4) x) := by
    intro x
    rw [List.drop_take]
    congr 1
    omega
  unfold read32
  rw [e, e, key]

theorem caravan_foldl_iovs (ops : List CarAppend) (c : Caravan) :
    (ops.foldl CarAppend.apply c).iovs = c.iovs ++ ops.map CarAppend.segLen := by
  induction ops generalizing c with
  | nil => simp
  | cons op rest ih =>
    cases op with
    | iov l =>
      simp [CarAppend.apply, CarAppend.segLen, caravan_append_iov, ih]
    | iovCmd l cmd =>
      simp [CarAppend.apply, CarAppend.segLen, caravan_append_iov, caravan_append_cmd, ih]
    | iovMapped l =>
      simp [CarAppend.apply, CarAppend.segLen, caravan_append_iov, caravan_append_mapped, ih]

theorem caravan_foldl_len (ops : List CarAppend) (c : Caravan) :
    (ops.foldl CarAppend.apply c).len = c.len + (ops.map CarAppend.segLen).sum := by
  induction ops generalizing c with
  | nil => simp
  | cons op rest ih =>
    cases op with
    | iov l =>
      simp [CarAppend.apply, CarAppend.segLen, caravan_append_iov, ih, Nat.add_assoc]
    | iovCmd l cmd =>
      simp [CarAppend.apply, CarAppend.segLen, caravan_append_iov, caravan_append_cmd, ih,
            Nat.add_assoc]
    | iovMapped l =>
      simp [CarAppend.apply, CarAppend.segLen, caravan_append_iov, caravan_append_mapped, ih,
            Nat.add_assoc]

theorem caravan_foldl_cmds (ops : List CarAppend) (c : Caravan) :
    (ops.foldl CarAppend.apply c).cmds = c.cmds ++ (ops.map CarAppend.owner).flatten := by
  induction ops generalizing c with
  | nil => simp
  | cons op rest ih =>
    cases op with
    | iov l =>
      simp [CarAppend.apply, CarAppend.owner, caravan_append_iov, ih]
    | iovCmd l cmd =>
      simp [CarAppend.apply, CarAppend.owner, caravan_append_iov, caravan_append_cmd, ih]
    | iovMapped l =>
      simp [CarAppend.apply, CarAppend.owner, caravan_append_iov, caravan_append_mapped, ih]

theorem put_cmd_foldl (cmds : List Cmd) (q : Queue) :
    (cmds.foldl i10_target_put_cmd q).free_list =
      q.free_list ++ (cmds.filter (fun c => !c.isConnect)).map Cmd.tag ∧
    (cmds.foldl i10_target_put_cmd q).caravan = q.caravan ∧
    (cmds.foldl i10_target_put_cmd q).caravan2 = q.caravan2 := by
  induction cmds generalizing q with
  | nil => simp
  | cons c rest ih =>
    by_cases hc : c.isConnect
    · obtain ⟨h1, h2, h3⟩ := ih q
      simp [i10_target_put_cmd, hc, List.filter_cons, h1, h2, h3]
    · obtain ⟨h1, h2, h3⟩ := ih { q with free_list := q.free_list ++ [c.tag] }
      simp [i10_target_put_cmd, hc, List.filter_cons, h1, h2, h3]

theorem try_recv_data_loop_bound (rs : List Int) (cmd : Cmd) (B : Nat)
    (hv : recvTraceValid rs (cmd.pdu_len - cmd.pdu_recv) = true)
    (hb : cmd.rbytes_done + (cmd.pdu_len - cmd.pdu_recv) ≤ B) :
    ((try_recv_data_loop rs cmd).cmd).rbytes_done ≤ B := by
  induction rs generalizing cmd with
  | nil =>
    unfold try_recv_data_loop
    split <;> simp [RecvDataOut.cmd] <;> omega
  | cons r rs1 ih =>
    by_cases hrem : cmd.pdu_len - cmd.pdu_recv = 0
    · simp [try_recv_data_loop, hrem, RecvDataOut.cmd]; omega
    · by_cases hr : r ≤ 0
      · simp [try_recv_data_loop, hrem, hr, RecvDataOut.cmd]; omega
      · have hv1 := hv
        simp only [recvTraceValid, if_neg hr, Bool.and_eq_true, decide_eq_true_eq] at hv1
        simp only [try_recv_data_loop, if_neg hrem, if_neg hr]
        apply ih
        · simpa [Nat.sub_sub] using hv1.2
        · have := hv1.1
          simp only []
          omega

theorem try_send_data_caravan_go_wbytes (sgs : List Nat) (q : Queue) (cmd : Cmd) (B : Nat)
    (h1 : cmd.offset ≤ sgs.headD 0)
    (h2 : cmd.wbytes_done + sgs.sum ≤ B + cmd.offset) :
    ((try_send_data_caravan_go sgs q cmd).2.cmd).wbytes_done ≤ B := by
  induction sgs generalizing q cmd with
  | nil =>
    simp only [List.headD_nil] at h1
    simp [try_send_data_caravan_go, DataLoopOut.cmd]
    omega
  | cons l rest ih =>
    simp only [List.headD_cons] at h1
    simp only [List.sum_cons] at h2
    by_cases hf : i10_target_is_caravan_full q = true
    · simp [try_send_data_caravan_go, hf, DataLoopOut.cmd]
      omega
    · by_cases hneg : ((l : Int) - (cmd.offset : Int)) ≤ 0
      · simp [try_send_data_caravan_go, hf, hneg, DataLoopOut.cmd]
        omega
      · have ht : ((l : Int) - (cmd.offset : Int)).toNat = l - cmd.offset := by omega
        simp only [try_send_data_caravan_go, if_neg hf, if_neg hneg, ht]
        apply ih
        · simp
        · simp
          omega

theorem try_send_data_direct_loop_wbytes (ws : List Int) (cmd : Cmd) (B : Nat)
    (hv : sendTraceValid ws cmd.offset cmd.cur_sg = true)
    (h1 : cmd.offset ≤ cmd.cur_sg.headD 0)
    (h2 : cmd.wbytes_done + cmd.cur_sg.sum ≤ B + cmd.offset) :
    ((try_send_data_direct_loop ws cmd).cmd).wbytes_done ≤ B := by
  induction ws generalizing cmd with
  | nil =>
    cases hsg : cmd.cur_sg <;>
      simp only [hsg, List.headD_nil, List.headD_cons] at h1 <;>
      simp only [hsg, List.sum_nil, List.sum_cons] at h2 <;>
      simp [try_send_data_direct_loop, hsg, DataLoopOut.cmd] <;>
      omega
  | cons w ws1 ih =>
    cases hsg : cmd.cur_sg with
    | nil =>
      simp only [hsg, List.headD_nil] at h1
      simp only [hsg, List.sum_nil] at h2
      simp [try_send_data_direct_loop, hsg, DataLoopOut.cmd]
      omega
    | cons l rest =>
      simp only [hsg, List.headD_cons] at h1
      simp only [hsg, List.sum_cons] at h2
      by_cases hw : w ≤ 0
      · simp [try_send_data_direct_loop, hsg, hw, DataLoopOut.cmd]
        omega
      · have hv1 := hv
        simp only [sendTraceValid, hsg, if_neg hw, Bool.and_eq_true, decide_eq_true_eq] at hv1
        obtain ⟨hwl, hv2⟩ := hv1
        by_cases hfin : cmd.offset + w.toNat = l
        · simp only [try_send_data_direct_loop, hsg, if_neg hw, if_pos hfin]
          rw [if_pos hfin] at hv2
          apply ih
          · simpa using hv2
          · simp
          · simp
            omega
        · simp only [try_send_data_direct_loop, hsg, if_neg hw, if_neg hfin]
          rw [if_neg hfin] at hv2
          apply ih
          · simpa [hsg] using hv2
          · simpa [hsg] using hwl
          · simp [hsg]
            omega

theorem tryRecvGo_ops_le (f : Nat → Int) (b : Nat) :
    ∀ (cur ops : Nat) (last : Int), ops ≤ (tryRecvGo f cur b ops last).2.1 := by
  induction b with
  | zero => intro cur ops last; simp [tryRecvGo]
  | succ b ih =>
    intro cur ops last
    simp only [tryRecvGo]
    split
    · simp
    · exact le_trans (Nat.le_succ ops) (ih (cur + 1) (ops + 1) (f cur))

theorem tryRecvGo_pos (f : Nat → Int) (b : Nat) :
    ∀ (cur ops : Nat) (last : Int), 0 < (tryRecvGo f cur b ops last).1 →
      (tryRecvGo f cur b ops last).2.1 = ops + b := by
  induction b with
  | zero => intro cur ops last _; simp [tryRecvGo]
  | succ b ih =>
    intro cur ops last h
    simp only [tryRecvGo] at h ⊢
    split
    · rename_i hr
      rw [if_pos hr] at h
      simp at h
      omega
    · rename_i hr
      rw [if_neg hr] at h
      rw [ih (cur + 1) (ops + 1) (f cur) h]
      omega

theorem trySendGo_ops_le (g : Nat → SendOut) (b : Nat) :
    ∀ (cur ops : Nat) (last : Int), ops ≤ (trySendGo g cur b ops last).2.1 := by
  induction b with
  | zero => intro cur ops last; simp [trySendGo]
  | succ b ih =>
    intro cur ops last
    simp only [trySendGo]
    split
    · simp
    · split
      · simp
      · exact le_trans (Nat.le_succ ops) (ih ..)

theorem trySendGo_pos (g : Nat → SendOut) (b : Nat) :
    ∀ (cur ops : Nat) (last : Int), 0 < (trySendGo g cur b ops last).1 →
      (trySendGo g cur b ops last).2.1 = ops + b := by
  induction b with
  | zero => intro cur ops last _; simp [trySendGo]
  | succ b ih =>
    intro cur ops last h
    simp only [trySendGo] at h ⊢
    split at h
    · simp at h
    · rename_i r hr
      split at h
      · simp at h
        omega
      · rename_i hrpos
        simp only [hr, if_neg hrpos]
        rw [ih (cur + 1) (ops + 1) r h]
        omega

theorem try_recv_ops (f : Nat → Int) (cur ops : Nat) :
    ops ≤ (i10_target_try_recv f cur ops).2.1 ∧
    (0 < (i10_target_try_recv f cur ops).1 →
      (i10_target_try_recv f cur ops).2.1 = ops + 16) := by
  refine ⟨tryRecvGo_ops_le f I10_TARGET_RECV_BUDGET cur ops 0, fun h => ?_⟩
  exact tryRecvGo_pos f I10_TARGET_RECV_BUDGET cur ops 0 h

theorem try_send_ops (g : Nat → SendOut) (cur ops : Nat) :
    ops ≤ (i10_target_try_send g cur ops).2.1 ∧
    (0 < (i10_target_try_send g cur ops).1 →
      (i10_target_try_send g cur ops).2.1 = ops + 16) := by
  refine ⟨trySendGo_ops_le g I10_TARGET_SEND_BUDGET cur ops 0, fun h => ?_⟩
  exact trySendGo_pos g I10_TARGET_SEND_BUDGET cur ops 0 h

theorem ioWorkGo_ne_fuelOut (f : Nat → Int) (g : Nat → SendOut) (fuel : Nat) :
    ∀ (rc sc ops : Nat),
      I10_TARGET_IO_WORK_BUDGET ≤ ops + 16 * fuel → 1 ≤ fuel →
      ioWorkGo f g rc sc ops fuel ≠ IoExit.fuelOut := by
  induction fuel with
  | zero =>
    intro rc sc ops _ h1
    exact absurd h1 (by omega)
  | succ n ih =>
    intro rc sc ops h _
    simp only [ioWorkGo]
    split
    · simp
    · split
      · simp
      · split
        · rename_i hc
          obtain ⟨hp, hlt⟩ := hc
          have key : ops + 16 ≤
              (i10_target_try_send g sc (i10_target_try_recv f rc ops).2.1).2.1 := by
            have hr1 := (try_recv_ops f rc ops).1
            have hs1 := (try_send_ops g sc (i10_target_try_recv f rc ops).2.1).1
            rcases hp with hp | hp
            · have h2 := (try_recv_ops f rc ops).2 hp
              omega
            · have h2 := (try_send_ops g sc (i10_target_try_recv f rc ops).2.1).2 hp
              omega
          apply ih <;> simp only [I10_TARGET_IO_WORK_BUDGET] at * <;> omega
        · simp

theorem ioWorkGo_finished (f : Nat → Int) (g : Nat → SendOut) (fuel : Nat) :
    ∀ (rc sc ops : Nat) (p rq : Bool) (o : Nat),
      ioWorkGo f g rc sc ops fuel = IoExit.finished p rq o →
      rq = p ∧ (p = false ∨ I10_TARGET_IO_WORK_BUDGET ≤ o) := by
  induction fuel with
  | zero =>
    intro rc sc ops p rq o h
    simp [ioWorkGo] at h
  | succ n ih =>
    intro rc sc ops p rq o h
    simp only [ioWorkGo] at h
    split at h
    · simp at h
    · split at h
      · simp at h
      · split at h
        · exact ih _ _ _ _ _ _ h
        · rename_i hnc
          injection h with h1 h2 h3
          subst h1
          subst h2
          subst h3
          refine ⟨rfl, ?_⟩
          by_cases hp : (0 < (i10_target_try_recv f rc ops).1 ∨
              0 < (i10_target_try_send g sc (i10_target_try_recv f rc ops).2.1).1)
          · right
            have hnl : ¬ ((i10_target_try_send g sc
                (i10_target_try_recv f rc ops).2.1).2.1 < I10_TARGET_IO_WORK_BUDGET) :=
              fun hl => hnc ⟨hp, hl⟩
            omega
          · left
            simp [hp]

/-! ## Claim theorems -/

/-- C1, counterexample.  The claim states that on a non-admin queue a
response PDU of a **write** command is appended to caravan C1 and that of a
**read** command to caravan C2.  On the embedded
`i10_target_try_send_response` (whose branch condition is
`!nvme_is_write`), the response of a concrete write command is appended to
caravan C2 — C1 stays empty — and the response of a concrete read command is
appended to caravan C1, refuting both rows of the table in the claim. -/
theorem c1_response_caravan_counterexample :
    (i10_target_try_send_response sampleIoQueue sampleWriteCmd 0).q.caravan = Caravan.empty ∧
    (i10_target_try_send_response sampleIoQueue sampleWriteCmd 0).q.caravan2.iovs =
      [sizeof_nvme_tcp_rsp_pdu] ∧
    (i10_target_try_send_response sampleIoQueue sampleWriteCmd 0).q.caravan2.cmds =
      [sampleWriteCmd] ∧
    (i10_target_try_send_response sampleIoQueue sampleReadCmd 0).q.caravan.iovs =
      [sizeof_nvme_tcp_rsp_pdu] ∧
    (i10_target_try_send_response sampleIoQueue sampleReadCmd 0).q.caravan2 = Caravan.empty := by
  decide

/-- C1, amended.  On a non-admin queue, the response PDU of a **write**
command is appended (with its owning command) to caravan **C2**, and the
response PDU of a **read** command to caravan **C1** — the reverse of the
claimed polarity — leaving the other caravan untouched. -/
theorem c1_response_caravan_amended (q : Queue) (cmd : Cmd)
    (hq : q.qid ≠ 0) (hoff : cmd.offset = 0) :
    (cmd.isWrite = true → i10_target_is_caravan2_full q = false →
      (i10_target_try_send_response q cmd 0).q.caravan2.iovs =
        q.caravan2.iovs ++ [sizeof_nvme_tcp_rsp_pdu + i10_target_hdgst_len q] ∧
      (i10_target_try_send_response q cmd 0).q.caravan2.cmds = q.caravan2.cmds ++ [cmd] ∧
      (i10_target_try_send_response q cmd 0).q.caravan = q.caravan) ∧
    (cmd.isWrite = false → i10_target_is_caravan_full q = false →
      (i10_target_try_send_response q cmd 0).q.caravan.iovs =
        q.caravan.iovs ++ [sizeof_nvme_tcp_rsp_pdu + i10_target_hdgst_len q] ∧
      (i10_target_try_send_response q cmd 0).q.caravan.cmds = q.caravan.cmds ++ [cmd] ∧
      (i10_target_try_send_response q cmd 0).q.caravan2 = q.caravan2) := by
  have hadmin : i10_target_is_admin_queue q = false := by
    simp [i10_target_is_admin_queue, hq]
  constructor
  · intro hw hful
    simp [i10_target_try_send_response, hadmin, hw, hful, hoff,
          caravan_append_iov, caravan_append_cmd]
    omega
  · intro hw hful
    simp [i10_target_try_send_response, hadmin, hw, hful, hoff,
          caravan_append_iov, caravan_append_cmd]
    omega

/-- C1, witness for the amended theorem at a concrete write command on a
concrete I/O queue. -/
theorem c1_response_caravan_amended_witness :
    (i10_target_try_send_response sampleIoQueue sampleWriteCmd 0).q.caravan2.cmds =
      sampleIoQueue.caravan2.cmds ++ [sampleWriteCmd] := by
  exact ((c1_response_caravan_amended sampleIoQueue sampleWriteCmd (by decide) rfl).1
    rfl (by decide)).2.1

/-- C2.  With the header-digest flag present, `i10_target_verify_hdgst` —
invoked from `i10_target_try_recv_pdu` with `len = queue->offset =
hdr->hlen + NVME_TCP_DIGEST_LENGTH` — recomputes the digest into
`pdu + len`, four bytes past the `pdu + hdr->hlen` location it reads both
`recv_digest` and `exp_digest` from, so it compares the received digest with
itself: it returns 0 for every digest value (the recomputed CRC is never
consulted), and the fatal-error path of the header-digest check never runs. -/
theorem c2_verify_hdgst_theorem (crc : List Nat → List Nat) (buf : List Nat)
    (hflag : buf.getD 1 0 &&& NVME_TCP_F_HDGST ≠ 0)
    (hlen : buf.getD 2 0 + NVME_TCP_DIGEST_LENGTH ≤ buf.length) :
    (i10_target_verify_hdgst crc buf (buf.getD 2 0 + NVME_TCP_DIGEST_LENGTH)).1 = 0 ∧
    i10_target_recv_pdu_hdgst_fatal crc true buf = false := by
  have key : read32 (i10_target_hdgst crc buf (buf.getD 2 0 + NVME_TCP_DIGEST_LENGTH))
      (buf.getD 2 0) = read32 buf (buf.getD 2 0) := by
    unfold i10_target_hdgst
    exact read32_write32_of_le buf _ _ _
      (by simp [NVME_TCP_DIGEST_LENGTH])
      (by simpa [NVME_TCP_DIGEST_LENGTH] using hlen)
  have h0 : (i10_target_verify_hdgst crc buf (buf.getD 2 0 + NVME_TCP_DIGEST_LENGTH)).1 = 0 := by
    simp only [i10_target_verify_hdgst]
    rw [if_neg hflag, key, if_pos rfl]
  refine ⟨h0, ?_⟩
  simp only [i10_target_recv_pdu_hdgst_fatal]
  rw [h0]
  decide

/-- C2, witness: a concrete 12-byte buffer (8-byte header with the HDGST
flag, trailing digest bytes 9,9,9,9) whose recomputed CRC differs from the
trailing digest, yet verification reports success and no fatal error. -/
theorem c2_verify_hdgst_witness :
    sampleCrc (sampleHdrBuf.take 8) ≠ read32 sampleHdrBuf 8 ∧
    (i10_target_verify_hdgst sampleCrc sampleHdrBuf
      (sampleHdrBuf.getD 2 0 + NVME_TCP_DIGEST_LENGTH)).1 = 0 ∧
    i10_target_recv_pdu_hdgst_fatal sampleCrc true sampleHdrBuf = false := by
  refine ⟨by decide, ?_, ?_⟩
  · exact (c2_verify_hdgst_theorem sampleCrc sampleHdrBuf (by decide) (by decide)).1
  · exact (c2_verify_hdgst_theorem sampleCrc sampleHdrBuf (by decide) (by decide)).2

/-- C3, counterexample.  The response append of the source itself (the caravan2
branch of `i10_target_try_send_response`, reached by the response of the
reserved connect slot on a live I/O queue) makes the connect command an owning
command of caravan C2; the flush releases its resources but, because
`i10_target_put_cmd` skips the connect slot, returns **no** command to the
free list — so the set of commands released to the free list (∅) differs
from the set of owning commands appended since the last flush. -/
theorem c3_flush_counterexample :
    sampleConnectHeld.caravan2.cmds = [sampleConnectCmd] ∧
    (i10_target_flush_caravan2 sampleConnectHeld).released = [sampleConnectCmd] ∧
    (i10_target_flush_caravan2 sampleConnectHeld).q.free_list = [] ∧
    sampleConnectHeld.free_list = [] := by
  decide

/-- C3, amended.  For any sequence of send-machine appends into an empty
caravan (C1 or C2), the flush hands exactly the sum of the appended segment
lengths to the single `kernel_sendmsg` (equivalently, the sum of the
recorded iov lengths), releases exactly the owning commands appended since
the last flush, and returns to the free list exactly those of them that are
not the reserved connect slot; the caravan is then reset to empty. -/
theorem c3_flush_amended (ops : List CarAppend) (q0 : Queue) :
    (i10_target_flush_caravan { q0 with caravan := caravanOfAppends ops }).sentBytes =
      (ops.map CarAppend.segLen).sum ∧
    (i10_target_flush_caravan { q0 with caravan := caravanOfAppends ops }).sentBytes =
      ((caravanOfAppends ops).iovs).sum ∧
    (i10_target_flush_caravan { q0 with caravan := caravanOfAppends ops }).released =
      (ops.map CarAppend.owner).flatten ∧
    (i10_target_flush_caravan { q0 with caravan := caravanOfAppends ops }).q.free_list =
      q0.free_list ++
        ((ops.map CarAppend.owner).flatten.filter (fun c => !c.isConnect)).map Cmd.tag ∧
    (i10_target_flush_caravan { q0 with caravan := caravanOfAppends ops }).q.caravan =
      Caravan.empty ∧
    (i10_target_flush_caravan2 { q0 with caravan2 := caravanOfAppends ops }).sentBytes =
      (ops.map CarAppend.segLen).sum ∧
    (i10_target_flush_caravan2 { q0 with caravan2 := caravanOfAppends ops }).released =
      (ops.map CarAppend.owner).flatten ∧
    (i10_target_flush_caravan2 { q0 with caravan2 := caravanOfAppends ops }).q.free_list =
      q0.free_list ++
        ((ops.map CarAppend.owner).flatten.filter (fun c => !c.isConnect)).map Cmd.tag := by
  have hi : (ops.foldl CarAppend.apply Caravan.empty).iovs = ops.map CarAppend.segLen := by
    simpa [Caravan.empty] using caravan_foldl_iovs ops Caravan.empty
  have hl : (ops.foldl CarAppend.apply Caravan.empty).len = (ops.map CarAppend.segLen).sum := by
    simpa [Caravan.empty] using caravan_foldl_len ops Caravan.empty
  have hc : (ops.foldl CarAppend.apply Caravan.empty).cmds = (ops.map CarAppend.owner).flatten := by
    simpa [Caravan.empty] using caravan_foldl_cmds ops Caravan.empty
  have hp1 := put_cmd_foldl (ops.foldl CarAppend.apply Caravan.empty).cmds
      { q0 with caravan := ops.foldl CarAppend.apply Caravan.empty }
  have hp2 := put_cmd_foldl (ops.foldl CarAppend.apply Caravan.empty).cmds
      { q0 with caravan2 := ops.foldl CarAppend.apply Caravan.empty }
  refine ⟨?_, ?_, ?_, ?_, ?_, ?_, ?_, ?_⟩
  · simpa [i10_target_flush_caravan, caravanOfAppends] using hl
  · simp [i10_target_flush_caravan, caravanOfAppends, hl, hi]
  · simpa [i10_target_flush_caravan, caravanOfAppends] using hc
  · simp only [i10_target_flush_caravan, caravanOfAppends]
    rw [hc]
    have h4 := hp1.1
    rw [hc] at h4
    exact h4
  · simp [i10_target_flush_caravan, caravanOfAppends]
  · simpa [i10_target_flush_caravan2, caravanOfAppends] using hl
  · simpa [i10_target_flush_caravan2, caravanOfAppends] using hc
  · simp only [i10_target_flush_caravan2, caravanOfAppends]
    rw [hc]
    have h8 := hp2.1
    rw [hc] at h8
    exact h8

/-- C4, counterexample.  `i10_target_handle_h2c_data_pdu` accepts a
peer-chosen `data_length` of 513 for a command slot whose `transfer_len` is
512 (it only checks `data_offset == rbytes_done`), and the subsequent
`i10_target_try_recv_data` absorption drives `rbytes_done` to 513 — so
`rbytes_done ≤ transfer_len` is violated while absorbing an h2c_data PDU. -/
theorem c4_rbytes_counterexample :
    i10_target_handle_h2c_data_pdu [sampleR2tSlot]
        { ttag := 0, data_offset := 0, data_length := 513 } =
      some (0, [{ sampleR2tSlot with pdu_len := 513 }], RState.RECV_DATA) ∧
    recvTraceValid [513] 513 = true ∧
    (try_recv_data_loop [513] { sampleR2tSlot with pdu_len := 513 }).cmd.rbytes_done = 513 ∧
    (try_recv_data_loop [513] { sampleR2tSlot with pdu_len := 513 }).cmd.transfer_len = 512 ∧
    ¬ ((try_recv_data_loop [513] { sampleR2tSlot with pdu_len := 513 }).cmd.rbytes_done ≤
        (try_recv_data_loop [513] { sampleR2tSlot with pdu_len := 513 }).cmd.transfer_len) := by
  decide

/-- C4, amended.  `rbytes_done ≤ transfer_len` is preserved by h2c_data
absorption **provided** the accepted PDU satisfies
`data_length ≤ transfer_len - rbytes_done` (the bound the code does not
check); and `wbytes_done ≤ transfer_len` holds on the send side, on both the
caravan path and the direct path, whenever the send starts from a consistent
cursor (`wbytes_done + remaining scatter bytes ≤ transfer_len`) and the
socket never reports more bytes than requested. -/
theorem c4_bytes_bound_amended :
    (∀ (cmds : List Cmd) (cmd : Cmd) (pdu : H2cPdu) (rs : List Int)
       (cmds1 : List Cmd) (r : Int) (st : RState),
       i10_target_handle_h2c_data_pdu cmds pdu = some (r, cmds1, st) →
       r = 0 →
       cmds.get? pdu.ttag = some cmd →
       pdu.data_length ≤ cmd.transfer_len - cmd.rbytes_done →
       cmd.rbytes_done ≤ cmd.transfer_len →
       recvTraceValid rs pdu.data_length = true →
       ((try_recv_data_loop rs (cmds1.getD pdu.ttag cmd)).cmd).rbytes_done ≤
         cmd.transfer_len) ∧
    (∀ (q : Queue) (cmd : Cmd),
       cmd.offset ≤ cmd.cur_sg.headD 0 →
       cmd.wbytes_done + cmd.cur_sg.sum ≤ cmd.transfer_len + cmd.offset →
       ((try_send_data_caravan_loop q cmd).2.cmd).wbytes_done ≤ cmd.transfer_len) ∧
    (∀ (ws : List Int) (cmd : Cmd),
       sendTraceValid ws cmd.offset cmd.cur_sg = true →
       cmd.offset ≤ cmd.cur_sg.headD 0 →
       cmd.wbytes_done + cmd.cur_sg.sum ≤ cmd.transfer_len + cmd.offset →
       ((try_send_data_direct_loop ws cmd).cmd).wbytes_done ≤ cmd.transfer_len) := by
  refine ⟨?_, ?_, ?_⟩
  · intro cmds cmd pdu rs cmds1 r st hh hr hget hlen hrb hv
    subst hr
    simp only [i10_target_handle_h2c_data_pdu, h2c_lookup_index, hget] at hh
    split at hh
    · injection hh with hh1
      injection hh1 with hr1 _
      exact absurd hr1 (by decide)
    · injection hh with hh1
      injection hh1 with _ hh2
      injection hh2 with hcmds _
      subst hcmds
      have hidx : pdu.ttag < cmds.length := by
        by_contra hcon
        have hnone : cmds.get? pdu.ttag = none := List.get?_eq_none.mpr (by omega)
        rw [hnone] at hget
        exact Option.noConfusion hget
      have hgetD : (cmds.set pdu.ttag
          { cmd with pdu_len := pdu.data_length, pdu_recv := 0 }).getD pdu.ttag cmd =
          { cmd with pdu_len := pdu.data_length, pdu_recv := 0 } := by
        simp [List.getD, List.getElem?_set_self hidx]
      rw [hgetD]
      exact try_recv_data_loop_bound rs _ cmd.transfer_len (by simpa using hv) (by simp; omega)
  · intro q cmd h1 h2
    exact try_send_data_caravan_go_wbytes cmd.cur_sg q cmd cmd.transfer_len h1 h2
  · intro ws cmd hv h1 h2
    exact try_send_data_direct_loop_wbytes ws cmd cmd.transfer_len hv h1 h2

/-- C4, witness for the amended theorem: a full valid absorption of 512
solicited bytes into a 512-byte write slot, and the caravan send of the
two-element scatter list of a 128-byte read. -/
theorem c4_bytes_bound_amended_witness :
    ((try_recv_data_loop [512]
        (([sampleR2tSlot].set 0 { sampleR2tSlot with pdu_len := 512, pdu_recv := 0 }).getD 0
          sampleR2tSlot)).cmd).rbytes_done ≤ sampleR2tSlot.transfer_len ∧
    ((try_send_data_caravan_loop sampleIoQueue sampleDataCmd).2.cmd).wbytes_done ≤
      sampleDataCmd.transfer_len := by
  constructor
  · exact c4_bytes_bound_amended.1 [sampleR2tSlot] sampleR2tSlot
      { ttag := 0, data_offset := 0, data_length := 512 } [512]
      ([sampleR2tSlot].set 0 { sampleR2tSlot with pdu_len := 512, pdu_recv := 0 }) 0
      RState.RECV_DATA (by decide) rfl (by decide) (by decide) (by decide) (by decide)
  · exact c4_bytes_bound_amended.2.1 sampleIoQueue sampleDataCmd (by decide) (by decide)

/-- C5, counterexample.  On a non-admin queue with data digest enabled,
`i10_target_try_send_ddgst` leaves both caravans (and the whole queue)
untouched and writes the 4 digest bytes directly to the socket — the data
digest is **not** appended to caravan C1. -/
theorem c5_ddgst_counterexample :
    (i10_target_try_send_ddgst sampleIoQueueDdgst sampleDdgstCmd 4).q = sampleIoQueueDdgst ∧
    (i10_target_try_send_ddgst sampleIoQueueDdgst sampleDdgstCmd 4).q.caravan = Caravan.empty ∧
    (i10_target_try_send_ddgst sampleIoQueueDdgst sampleDdgstCmd 4).wire =
      [NVME_TCP_DIGEST_LENGTH] := by
  decide

/-- C5, amended.  On a non-admin queue the `c2h_data` PDU header and the
payload pages are appended to caravan C1 (no direct socket write), but the
trailing 4-byte data digest is sent by `i10_target_try_send_ddgst` directly
through `kernel_sendmsg` on every queue — it never enters a caravan, so it
reaches the wire independently of the C1 flush. -/
theorem c5_c2h_placement_amended (q : Queue) (cmd : Cmd) (w : Int) (hq : q.qid ≠ 0) :
    (cmd.offset = 0 → i10_target_is_caravan_full q = false →
      (i10_target_try_send_data_pdu q cmd 0).q.caravan.iovs =
        q.caravan.iovs ++ [sizeof_nvme_tcp_data_pdu + i10_target_hdgst_len q] ∧
      (i10_target_try_send_data_pdu q cmd 0).wire = [] ∧
      (i10_target_try_send_data_pdu q cmd 0).cmd.state = SendState.SEND_DATA) ∧
    (∀ l : Nat, cmd.cur_sg = [l] → cmd.offset = 0 → 0 < l →
      i10_target_is_caravan_full q = false →
      (try_send_data_caravan_loop q cmd).1.caravan.iovs = q.caravan.iovs ++ [l] ∧
      (try_send_data_caravan_loop q cmd).1.caravan.mapped = q.caravan.mapped + 1) ∧
    (0 < w →
      (i10_target_try_send_ddgst q cmd w).q = q ∧
      (i10_target_try_send_ddgst q cmd w).wire = [w.toNat]) := by
  have hadmin : i10_target_is_admin_queue q = false := by
    simp [i10_target_is_admin_queue, hq]
  refine ⟨?_, ?_, ?_⟩
  · intro hoff hful
    simp [i10_target_try_send_data_pdu, hadmin, hful, hoff, caravan_append_iov]
    split
    · rename_i hcond
      have ha : (1:Nat) ≤ sizeof_nvme_tcp_data_pdu := by decide
      exact absurd hcond (by omega)
    · simp
      omega
  · intro l hsg hoff hl hful
    simp [try_send_data_caravan_loop, hsg, try_send_data_caravan_go, hful, hoff,
          caravan_append_iov, caravan_append_mapped]
    split
    · rename_i hcond
      exact absurd hcond (by omega)
    · simp
  · intro hw
    simp [i10_target_try_send_ddgst, show ¬ w ≤ 0 by omega]

/-- C5, witness for the amended theorem at a concrete read command on a
concrete I/O queue with data digest on. -/
theorem c5_c2h_placement_amended_witness :
    (i10_target_try_send_ddgst sampleIoQueueDdgst sampleDdgstCmd 4).q = sampleIoQueueDdgst ∧
    (i10_target_try_send_ddgst sampleIoQueueDdgst sampleDdgstCmd 4).wire = [(4:Int).toNat] := by
  exact (c5_c2h_placement_amended sampleIoQueueDdgst sampleDdgstCmd 4 (by decide)).2.2
    (by decide)

/-- C6, counterexample.  A partial socket write of 2 of the 4 data-digest
bytes makes `i10_target_try_send_ddgst` report success (1, not `-EAGAIN`)
and move the command from `SEND_DDGST` to `SEND_RESPONSE` — a stage
transition on a short write, with the remaining digest bytes never sent. -/
theorem c6_short_write_counterexample :
    ((0:Int) < 2 ∧ (2:Int) < ((NVME_TCP_DIGEST_LENGTH : Nat) : Int) -
      (sampleDdgstCmd.offset : Int)) ∧
    sampleDdgstCmd.state = SendState.SEND_DDGST ∧
    (i10_target_try_send_ddgst sampleIoQueueDdgst sampleDdgstCmd 2).ret = 1 ∧
    (i10_target_try_send_ddgst sampleIoQueueDdgst sampleDdgstCmd 2).ret ≠ EAGAIN ∧
    (i10_target_try_send_ddgst sampleIoQueueDdgst sampleDdgstCmd 2).cmd.state =
      SendState.SEND_RESPONSE := by
  decide

/-- C6, amended.  On the direct-socket stages `SEND_DATA_PDU`, `SEND_R2T`
and `SEND_RESPONSE` (admin queue), a partial write `0 < written < requested`
accumulates in `offset`, leaves the send state (and the queue, so no release)
unchanged, and reports `-EAGAIN`; the `SEND_DDGST` stage instead reports
success and transitions to `SEND_RESPONSE` even on a short write. -/
theorem c6_short_write_amended (q : Queue) (cmd : Cmd) (w : Int)
    (hq : q.qid = 0) (hw0 : 0 < w) :
    (w < ((sizeof_nvme_tcp_data_pdu + i10_target_hdgst_len q : Nat) : Int) - (cmd.offset : Int) →
      (i10_target_try_send_data_pdu q cmd w).ret = EAGAIN ∧
      (i10_target_try_send_data_pdu q cmd w).cmd.state = cmd.state ∧
      (i10_target_try_send_data_pdu q cmd w).cmd.offset = cmd.offset + w.toNat ∧
      (i10_target_try_send_data_pdu q cmd w).q = q) ∧
    (w < ((sizeof_nvme_tcp_r2t_pdu + i10_target_hdgst_len q : Nat) : Int) - (cmd.offset : Int) →
      (i10_target_try_send_r2t q cmd w).ret = EAGAIN ∧
      (i10_target_try_send_r2t q cmd w).cmd.state = cmd.state ∧
      (i10_target_try_send_r2t q cmd w).cmd.offset = cmd.offset + w.toNat ∧
      (i10_target_try_send_r2t q cmd w).q = q) ∧
    (w < ((sizeof_nvme_tcp_rsp_pdu + i10_target_hdgst_len q : Nat) : Int) - (cmd.offset : Int) →
      (i10_target_try_send_response q cmd w).ret = EAGAIN ∧
      (i10_target_try_send_response q cmd w).cmd.state = cmd.state ∧
      (i10_target_try_send_response q cmd w).cmd.offset = cmd.offset + w.toNat ∧
      (i10_target_try_send_response q cmd w).q = q) ∧
    (w < ((NVME_TCP_DIGEST_LENGTH : Nat) : Int) - (cmd.offset : Int) →
      (i10_target_try_send_ddgst q cmd w).ret = 1 ∧
      (i10_target_try_send_ddgst q cmd w).cmd.state = SendState.SEND_RESPONSE) := by
  have hadmin : i10_target_is_admin_queue q = true := by
    simp [i10_target_is_admin_queue, hq]
  have hwn : ¬ w ≤ 0 := by omega
  refine ⟨?_, ?_, ?_, ?_⟩
  · intro hlt
    simp [i10_target_try_send_data_pdu, hadmin, hwn]
    split
    · rename_i hcond
      exact absurd hcond (by omega)
    · simp
  · intro hlt
    simp [i10_target_try_send_r2t, hadmin, hwn]
    split
    · rename_i hcond
      exact absurd hcond (by omega)
    · simp
  · intro hlt
    simp [i10_target_try_send_response, hadmin, hwn]
    split
    · rename_i hcond
      exact absurd hcond (by omega)
    · simp
  · intro _
    simp [i10_target_try_send_ddgst, hwn, i10_target_setup_response_pdu]

/-- C6, witness for the amended theorem: a 5-byte partial write of the
24-byte response PDU on the admin queue, and a 2-byte partial write of the
4-byte data digest. -/
theorem c6_short_write_amended_witness :
    (i10_target_try_send_response sampleAdminQueue sampleAdminRspCmd 5).ret = EAGAIN ∧
    (i10_target_try_send_ddgst sampleAdminQueue sampleAdminRspCmd 2).cmd.state =
      SendState.SEND_RESPONSE := by
  refine ⟨?_, ?_⟩
  · exact ((c6_short_write_amended sampleAdminQueue sampleAdminRspCmd 5 rfl
      (by decide)).2.2.1 (by decide)).1
  · exact ((c6_short_write_amended sampleAdminQueue sampleAdminRspCmd 2 rfl
      (by decide)).2.2.2 (by decide)).2

/-- C7.  `i10_target_setup_r2t_pdu` fills exactly one r2t PDU with
`r2t_length = transfer_len - rbytes_done`, `r2t_offset = rbytes_done` and
`ttag` equal to the slot index of the command; emitting it (caravan C2 append on
a non-admin queue, or a complete direct write on the admin queue) appends
exactly one segment, clears `snd_cmd`, and leaves the free list unchanged —
the command is not released.  The caravan2 owning-command list is also
unchanged, so a later flush cannot release it either; and once
`rbytes_done = transfer_len` the classifier `i10_target_need_data_in` is
false, so the fetch path can never set up a second R2T for the same
solicitation. -/
theorem c7_r2t_theorem (q : Queue) (cmd : Cmd) :
    ((i10_target_setup_r2t_pdu q cmd).2.r2t_length = cmd.transfer_len - cmd.rbytes_done ∧
     (i10_target_setup_r2t_pdu q cmd).2.r2t_offset = cmd.rbytes_done ∧
     (i10_target_setup_r2t_pdu q cmd).2.ttag = cmd.tag ∧
     (i10_target_setup_r2t_pdu q cmd).1.state = SendState.SEND_R2T ∧
     (i10_target_setup_r2t_pdu q cmd).1.offset = 0) ∧
    (q.qid ≠ 0 → i10_target_is_caravan2_full q = false → cmd.offset = 0 →
      (i10_target_try_send_r2t q cmd 0).ret = 1 ∧
      (i10_target_try_send_r2t q cmd 0).q.caravan2.iovs =
        q.caravan2.iovs ++ [sizeof_nvme_tcp_r2t_pdu + i10_target_hdgst_len q] ∧
      (i10_target_try_send_r2t q cmd 0).q.caravan2.cmds = q.caravan2.cmds ∧
      (i10_target_try_send_r2t q cmd 0).q.snd_cmd_active = false ∧
      (i10_target_try_send_r2t q cmd 0).q.free_list = q.free_list) ∧
    (q.qid = 0 → cmd.offset = 0 →
      (i10_target_try_send_r2t q cmd
          ((sizeof_nvme_tcp_r2t_pdu + i10_target_hdgst_len q : Nat) : Int)).ret = 1 ∧
      (i10_target_try_send_r2t q cmd
          ((sizeof_nvme_tcp_r2t_pdu + i10_target_hdgst_len q : Nat) : Int)).q.snd_cmd_active =
        false ∧
      (i10_target_try_send_r2t q cmd
          ((sizeof_nvme_tcp_r2t_pdu + i10_target_hdgst_len q : Nat) : Int)).q.free_list =
        q.free_list) ∧
    i10_target_need_data_in { cmd with rbytes_done := cmd.transfer_len } = false := by
  have h24 : (1:Nat) ≤ sizeof_nvme_tcp_r2t_pdu := by decide
  refine ⟨⟨rfl, rfl, rfl, rfl, rfl⟩, ?_, ?_, ?_⟩
  · intro hq hful hoff
    have hadmin : i10_target_is_admin_queue q = false := by
      simp [i10_target_is_admin_queue, hq]
    simp [i10_target_try_send_r2t, hadmin, hful, hoff, caravan_append_iov]
    split
    · rename_i hcond
      exact absurd hcond (by omega)
    · simp
      omega
  · intro hq hoff
    have hadmin : i10_target_is_admin_queue q = true := by
      simp [i10_target_is_admin_queue, hq]
    simp [i10_target_try_send_r2t, hadmin, hoff]
    split
    · rename_i hcond
      exact absurd hcond (by omega)
    · simp
  · simp [i10_target_need_data_in, i10_target_has_data_in]

/-- C7, witness at a concrete solicited-write slot on a concrete I/O
queue. -/
theorem c7_r2t_theorem_witness :
    (i10_target_setup_r2t_pdu sampleIoQueue sampleR2tSlot).2.r2t_length =
      sampleR2tSlot.transfer_len - sampleR2tSlot.rbytes_done ∧
    (i10_target_try_send_r2t sampleIoQueue sampleR2tSlot 0).q.free_list =
      sampleIoQueue.free_list := by
  refine ⟨(c7_r2t_theorem sampleIoQueue sampleR2tSlot).1.1, ?_⟩
  exact ((c7_r2t_theorem sampleIoQueue sampleR2tSlot).2.1 (by decide) (by decide)
    rfl).2.2.2.2


/-- C8.  The `i10_target_io_work` body always terminates within its budgeted
fuel (it never reaches the `fuelOut` sentinel, because every loop iteration
that continues strictly increases `ops` — by a full budget of 16, as the
last two conjuncts show); whenever it finishes normally, the work item was
requeued on the CPU of the queue if and only if progress was still pending, and
at a normal exit either nothing was pending or `ops` reached
`I10_TARGET_IO_WORK_BUDGET = 64`. -/
theorem c8_io_work_theorem :
    (∀ (f : Nat → Int) (g : Nat → SendOut), i10_target_io_work f g ≠ IoExit.fuelOut) ∧
    (∀ (f : Nat → Int) (g : Nat → SendOut) (p rq : Bool) (o : Nat),
      i10_target_io_work f g = IoExit.finished p rq o →
      rq = p ∧ (p = false ∨ I10_TARGET_IO_WORK_BUDGET ≤ o)) ∧
    (∀ (f : Nat → Int) (cur ops : Nat),
      0 < (i10_target_try_recv f cur ops).1 →
      (i10_target_try_recv f cur ops).2.1 = ops + I10_TARGET_RECV_BUDGET) ∧
    (∀ (g : Nat → SendOut) (cur ops : Nat),
      0 < (i10_target_try_send g cur ops).1 →
      (i10_target_try_send g cur ops).2.1 = ops + I10_TARGET_SEND_BUDGET) := by
  refine ⟨?_, ?_, ?_, ?_⟩
  · intro f g
    exact ioWorkGo_ne_fuelOut f g I10_TARGET_IO_WORK_BUDGET 0 0 0 (by decide) (by decide)
  · intro f g p rq o h
    exact ioWorkGo_finished f g I10_TARGET_IO_WORK_BUDGET 0 0 0 p rq o h
  · intro f cur ops h
    exact (try_recv_ops f cur ops).2 h
  · intro g cur ops h
    exact (try_send_ops g cur ops).2 h

/-- C8, witness: a run in which every receive and send call reports
progress finishes with `pending = requeued = true` and `ops = 64`, and the
clauses of the theorem instantiate at it. -/
theorem c8_io_work_theorem_witness :
    i10_target_io_work (fun _ => 1) (fun _ => SendOut.res 1) ≠ IoExit.fuelOut ∧
    (true = true ∧ (true = false ∨ I10_TARGET_IO_WORK_BUDGET ≤ 64)) ∧
    (i10_target_try_recv (fun _ => 1) 0 0).2.1 = 0 + I10_TARGET_RECV_BUDGET := by
  refine ⟨c8_io_work_theorem.1 _ _, ?_, ?_⟩
  · exact c8_io_work_theorem.2.1 (fun _ => 1) (fun _ => SendOut.res 1) true true 64 (by decide)
  · exact c8_io_work_theorem.2.2.1 (fun _ => 1) 0 0 (by decide)

/-- C9.  The h2c_data dispatch dereferences `queue->cmds[data->ttag]` with
the raw wire-supplied `ttag` — `h2c_lookup_index` is the identity on `ttag`,
with no comparison against `nr_cmds` — so the lookup stays inside the slot
array exactly when `ttag < nr_cmds`, and for every PDU with
`ttag ≥ nr_cmds` the access is out of bounds (`none` in the embedding);
`i10_target_install_queue` provisions `nr_cmds = 2 × sq->size`. -/
theorem c9_h2c_ttag_theorem :
    (∀ pdu : H2cPdu, h2c_lookup_index pdu = pdu.ttag) ∧
    (∀ (cmds : List Cmd) (pdu : H2cPdu),
      (i10_target_handle_h2c_data_pdu cmds pdu = none ↔ cmds.length ≤ pdu.ttag)) ∧
    (∀ sq_size : Nat, i10_target_install_queue_nr_cmds sq_size = sq_size * 2) := by
  refine ⟨fun _ => rfl, ?_, fun _ => rfl⟩
  intro cmds pdu
  unfold i10_target_handle_h2c_data_pdu
  cases hget : cmds.get? (h2c_lookup_index pdu) with
  | none =>
    simp only [h2c_lookup_index] at hget
    simp [hget]
    exact List.get?_eq_none.mp hget
  | some cmd =>
    have hlt : pdu.ttag < cmds.length := by
      by_contra hcon
      simp only [h2c_lookup_index] at hget
      rw [List.get?_eq_none.mpr (by omega : cmds.length ≤ pdu.ttag)] at hget
      exact Option.noConfusion hget
    simp only [hget]
    constructor
    · intro hnone
      exfalso
      revert hnone
      split <;> simp
    · intro hle
      exact absurd hle (by omega)

/-- C10.  When the first icreq PDU carries a `plen` different from the icreq
PDU size, `i10_target_handle_icreq` invokes the fatal-error path but does
not return early: with `pfv = 1`, `hpda = 0` and `maxr2t = 0` it still sends
an icresp and moves the queue to `LIVE`, returning 0. -/
theorem c10_icreq_theorem (rcv0 : RState) (p : IcreqPdu)
    (hplen : p.plen ≠ sizeof_nvme_tcp_icreq_pdu)
    (hpfv : p.pfv = 1) (hhpda : p.hpda = 0) (hmaxr2t : p.maxr2t = 0) :
    (i10_target_handle_icreq rcv0 p).fatal_invoked = true ∧
    (i10_target_handle_icreq rcv0 p).icresp_sent = true ∧
    (i10_target_handle_icreq rcv0 p).qstate = QState.LIVE ∧
    (i10_target_handle_icreq rcv0 p).ret = 0 := by
  simp [i10_target_handle_icreq, hplen, hpfv, hhpda, hmaxr2t]

/-- C10, witness: an icreq with `plen = 0` (wrong), `pfv = 1`, `hpda = 0`,
`maxr2t = 0`, digests off. -/
theorem c10_icreq_theorem_witness :
    (i10_target_handle_icreq RState.RECV_PDU
      { plen := 0, pfv := 1, hpda := 0, maxr2t := 0, digest := 0 }).fatal_invoked = true ∧
    (i10_target_handle_icreq RState.RECV_PDU
      { plen := 0, pfv := 1, hpda := 0, maxr2t := 0, digest := 0 }).qstate = QState.LIVE := by
  refine ⟨?_, ?_⟩
  · exact (c10_icreq_theorem RState.RECV_PDU _ (by decide) rfl rfl rfl).1
  · exact (c10_icreq_theorem RState.RECV_PDU _ (by decide) rfl rfl rfl).2.2.1

/-- C9, witness: on a queue with no slots installed, any h2c_data PDU ttag
is out of bounds, and a one-slot array is exceeded by ttag 1. -/
theorem c9_h2c_ttag_theorem_witness :
    i10_target_handle_h2c_data_pdu [] { ttag := 5, data_offset := 0, data_length := 0 } = none ∧
    i10_target_handle_h2c_data_pdu [sampleR2tSlot]
      { ttag := 1, data_offset := 0, data_length := 0 } = none := by
  refine ⟨?_, ?_⟩
  · exact (c9_h2c_ttag_theorem.2.1 [] { ttag := 5, data_offset := 0, data_length := 0 }).mpr
      (by decide)
  · exact (c9_h2c_ttag_theorem.2.1 [sampleR2tSlot]
      { ttag := 1, data_offset := 0, data_length := 0 }).mpr (by decide)
